import Mathlib

/-!
Verification development for the CPOR protocol core: a shallow embedding of
`src/cpor/messages.py` (message schemas, canonical mapping conversion, type
inference, parsing) and `src/cpor/crypto.py` (Ed25519 key management, signing,
verification), together with theorems settling the specification claims.

Decoded CBOR data is modelled by the `Value` type.  The external `cbor2` codec
and the external PyNaCl Ed25519 primitive are not part of this repository; they
are modelled symbolically (see the doc comments on `Bytes`, `SigBytes` and
`naclVerify`).
-/

deriving instance DecidableEq for Except

namespace Cpor

/-- A decoded CBOR value as produced by `cbor2.loads`: Python `None`, `bool`,
`int`, `str`, `bytes`, `list`, and string-keyed `dict`. -/
inductive Value where
  | null : Value
  | bool (b : Bool) : Value
  | int (n : Int) : Value
  | str (s : String) : Value
  | bytes (bs : List Nat) : Value
  | list (vs : List Value) : Value
  | map (kvs : List (String × Value)) : Value

mutual

/-- Decidable equality for `Value` (spelled out because automatic deriving does
not handle the nested `List` occurrences). -/
def Value.decEq : (a b : Value) → Decidable (a = b)
  | .null, .null => .isTrue rfl
  | .bool x, .bool y =>
      if h : x = y then .isTrue (by rw [h]) else .isFalse (fun he => h (Value.bool.inj he))
  | .int x, .int y =>
      if h : x = y then .isTrue (by rw [h]) else .isFalse (fun he => h (Value.int.inj he))
  | .str x, .str y =>
      if h : x = y then .isTrue (by rw [h]) else .isFalse (fun he => h (Value.str.inj he))
  | .bytes x, .bytes y =>
      if h : x = y then .isTrue (by rw [h]) else .isFalse (fun he => h (Value.bytes.inj he))
  | .list xs, .list ys =>
      match Value.decEqList xs ys with
      | .isTrue h => .isTrue (by rw [h])
      | .isFalse h => .isFalse (fun he => h (Value.list.inj he))
  | .map xs, .map ys =>
      match Value.decEqMap xs ys with
      | .isTrue h => .isTrue (by rw [h])
      | .isFalse h => .isFalse (fun he => h (Value.map.inj he))
  | .null, .bool _ => .isFalse (fun h => Value.noConfusion h)
  | .null, .int _ => .isFalse (fun h => Value.noConfusion h)
  | .null, .str _ => .isFalse (fun h => Value.noConfusion h)
  | .null, .bytes _ => .isFalse (fun h => Value.noConfusion h)
  | .null, .list _ => .isFalse (fun h => Value.noConfusion h)
  | .null, .map _ => .isFalse (fun h => Value.noConfusion h)
  | .bool _, .null => .isFalse (fun h => Value.noConfusion h)
  | .bool _, .int _ => .isFalse (fun h => Value.noConfusion h)
  | .bool _, .str _ => .isFalse (fun h => Value.noConfusion h)
  | .bool _, .bytes _ => .isFalse (fun h => Value.noConfusion h)
  | .bool _, .list _ => .isFalse (fun h => Value.noConfusion h)
  | .bool _, .map _ => .isFalse (fun h => Value.noConfusion h)
  | .int _, .null => .isFalse (fun h => Value.noConfusion h)
  | .int _, .bool _ => .isFalse (fun h => Value.noConfusion h)
  | .int _, .str _ => .isFalse (fun h => Value.noConfusion h)
  | .int _, .bytes _ => .isFalse (fun h => Value.noConfusion h)
  | .int _, .list _ => .isFalse (fun h => Value.noConfusion h)
  | .int _, .map _ => .isFalse (fun h => Value.noConfusion h)
  | .str _, .null => .isFalse (fun h => Value.noConfusion h)
  | .str _, .bool _ => .isFalse (fun h => Value.noConfusion h)
  | .str _, .int _ => .isFalse (fun h => Value.noConfusion h)
  | .str _, .bytes _ => .isFalse (fun h => Value.noConfusion h)
  | .str _, .list _ => .isFalse (fun h => Value.noConfusion h)
  | .str _, .map _ => .isFalse (fun h => Value.noConfusion h)
  | .bytes _, .null => .isFalse (fun h => Value.noConfusion h)
  | .bytes _, .bool _ => .isFalse (fun h => Value.noConfusion h)
  | .bytes _, .int _ => .isFalse (fun h => Value.noConfusion h)
  | .bytes _, .str _ => .isFalse (fun h => Value.noConfusion h)
  | .bytes _, .list _ => .isFalse (fun h => Value.noConfusion h)
  | .bytes _, .map _ => .isFalse (fun h => Value.noConfusion h)
  | .list _, .null => .isFalse (fun h => Value.noConfusion h)
  | .list _, .bool _ => .isFalse (fun h => Value.noConfusion h)
  | .list _, .int _ => .isFalse (fun h => Value.noConfusion h)
  | .list _, .str _ => .isFalse (fun h => Value.noConfusion h)
  | .list _, .bytes _ => .isFalse (fun h => Value.noConfusion h)
  | .list _, .map _ => .isFalse (fun h => Value.noConfusion h)
  | .map _, .null => .isFalse (fun h => Value.noConfusion h)
  | .map _, .bool _ => .isFalse (fun h => Value.noConfusion h)
  | .map _, .int _ => .isFalse (fun h => Value.noConfusion h)
  | .map _, .str _ => .isFalse (fun h => Value.noConfusion h)
  | .map _, .bytes _ => .isFalse (fun h => Value.noConfusion h)
  | .map _, .list _ => .isFalse (fun h => Value.noConfusion h)

/-- Decidable equality for lists of values. -/
def Value.decEqList : (xs ys : List Value) → Decidable (xs = ys)
  | [], [] => .isTrue rfl
  | [], _ :: _ => .isFalse (fun h => List.noConfusion h)
  | _ :: _, [] => .isFalse (fun h => List.noConfusion h)
  | x :: xs, y :: ys =>
      match Value.decEq x y with
      | .isFalse h => .isFalse (fun he => h (List.cons.inj he).1)
      | .isTrue h1 =>
        match Value.decEqList xs ys with
        | .isTrue h2 => .isTrue (by rw [h1, h2])
        | .isFalse h2 => .isFalse (fun he => h2 (List.cons.inj he).2)

/-- Decidable equality for string-keyed mappings of values. -/
def Value.decEqMap : (xs ys : List (String × Value)) → Decidable (xs = ys)
  | [], [] => .isTrue rfl
  | [], _ :: _ => .isFalse (fun h => List.noConfusion h)
  | _ :: _, [] => .isFalse (fun h => List.noConfusion h)
  | (k, v) :: xs, (k2, v2) :: ys =>
      if h0 : k = k2 then
        match Value.decEq v v2 with
        | .isFalse h => .isFalse (fun he => h (congrArg Prod.snd (List.cons.inj he).1))
        | .isTrue h1 =>
          match Value.decEqMap xs ys with
          | .isTrue h2 => .isTrue (by rw [h0, h1, h2])
          | .isFalse h2 => .isFalse (fun he => h2 (List.cons.inj he).2)
      else .isFalse (fun he => h0 (congrArg Prod.fst (List.cons.inj he).1))

end

instance : DecidableEq Value := Value.decEq

/-- Python truthiness of a decoded value (`not x` in the validators): `None`,
`False`, `0`, and empty strings/bytes/lists/dicts are falsy. -/
def Value.truthy : Value → Bool
  | .null => false
  | .bool b => b
  | .int n => n != 0
  | .str s => s != ""
  | .bytes bs => !bs.isEmpty
  | .list vs => !vs.isEmpty
  | .map kvs => !kvs.isEmpty

/-- Python `len(x)`: defined for sized values, a `TypeError` otherwise. -/
def Value.len? : Value → Option Nat
  | .str s => some s.length
  | .bytes bs => some bs.length
  | .list vs => some vs.length
  | .map kvs => some kvs.length
  | _ => none

/-- Whether a value is Python `None`. -/
def Value.isNull : Value → Bool
  | .null => true
  | _ => false

/-- Python `isinstance(x, list)`. -/
def Value.isList : Value → Bool
  | .list _ => true
  | _ => false

/-- Python `isinstance(x, bytes)`. -/
def Value.isBytes : Value → Bool
  | .bytes _ => true
  | _ => false

/-- Whether a value is a mapping (`isinstance(x, dict)`). -/
def Value.isMap : Value → Bool
  | .map _ => true
  | _ => false

/-- Python `x == s` against a string literal: only a `str` value can be equal
to a string. -/
def Value.eqStr (v : Value) (s : String) : Bool :=
  match v with
  | .str t => t == s
  | _ => false

/-- Python `x != 0`: for non-numeric values the comparison is `True`
(no exception); `bool` compares as 0/1. -/
def Value.neZero : Value → Bool
  | .int n => n != 0
  | .bool b => b
  | _ => true

/-- The exceptions raised by `messages.py`: `InvalidMessageError`,
`SerializationError`, `SignatureError`; `typeError` stands for a Python
`TypeError` escaping a validator (caught and re-raised as `InvalidMessageError`
by `from_dict`). -/
inductive Err where
  | invalidMessage (msg : String) : Err
  | serialization (msg : String) : Err
  | signatureError (msg : String) : Err
  | typeError (msg : String) : Err
deriving DecidableEq

/-- The ten concrete message classes of `messages.py`. -/
inductive Kind where
  | connectRequest
  | connectResponse
  | generic
  | resumeRequest
  | resumeResponse
  | batch
  | heartbeat
  | close
  | ack
  | error
deriving DecidableEq

/-- The Python type annotation of a dataclass field, used to say when a field
assignment is well-typed (`opt…` are the `Optional[...]` annotations, which
admit `None`). -/
inductive Ty where
  | str
  | bytes
  | int
  | bool
  | listStr
  | listMap
  | dict
  | optStr
  | optInt
  | optBytes
  | optDict
deriving DecidableEq

/-- Whether a value conforms to a field's type annotation. -/
def Ty.matches : Ty → Value → Bool
  | Ty.str, Value.str _ => true
  | Ty.bytes, Value.bytes _ => true
  | Ty.int, Value.int _ => true
  | Ty.bool, Value.bool _ => true
  | Ty.listStr, Value.list vs => vs.all (fun v => match v with | Value.str _ => true | _ => false)
  | Ty.listMap, Value.list vs => vs.all (fun v => match v with | Value.map _ => true | _ => false)
  | Ty.dict, Value.map _ => true
  | Ty.optStr, Value.null => true
  | Ty.optStr, Value.str _ => true
  | Ty.optInt, Value.null => true
  | Ty.optInt, Value.int _ => true
  | Ty.optBytes, Value.null => true
  | Ty.optBytes, Value.bytes _ => true
  | Ty.optDict, Value.null => true
  | Ty.optDict, Value.map _ => true
  | _, _ => false

/-- Whether a type annotation is `Optional[...]` (admits `None`). -/
def Ty.nullable : Ty → Bool
  | Ty.optStr => true
  | Ty.optInt => true
  | Ty.optBytes => true
  | Ty.optDict => true
  | _ => false

/-- One dataclass field: its name, its default value (`dflt`), and its type
annotation. -/
structure FieldInfo where
  name : String
  dflt : Value
  ty : Ty
deriving DecidableEq

/-- The `__dataclass_fields__` of each message class, in dataclass order: the
three `BaseMessage` fields first (a field redeclared by a subclass, namely
`timestamp` in `HeartbeatMessage`, keeps its base-class position), then the
subclass fields in declaration order, each with its declared default. -/
def fieldSpec : Kind → List FieldInfo
  | Kind.connectRequest =>
    [⟨"version", Value.str "CPOR-2", Ty.str⟩,
     ⟨"message_id", Value.null, Ty.optStr⟩,
     ⟨"timestamp", Value.null, Ty.optInt⟩,
     ⟨"type", Value.str "connect_request", Ty.str⟩,
     ⟨"client_id", Value.str "", Ty.str⟩,
     ⟨"client_pubkey", Value.bytes [], Ty.bytes⟩,
     ⟨"resume_sequence", Value.int 0, Ty.int⟩,
     ⟨"nonce", Value.bytes [], Ty.bytes⟩,
     ⟨"registration_flag", Value.bool false, Ty.bool⟩,
     ⟨"protocol_version", Value.str "CPOR-2", Ty.str⟩,
     ⟨"capabilities", Value.list [], Ty.listStr⟩,
     ⟨"key_storage", Value.null, Ty.optStr⟩]
  | Kind.connectResponse =>
    [⟨"version", Value.str "CPOR-2", Ty.str⟩,
     ⟨"message_id", Value.null, Ty.optStr⟩,
     ⟨"timestamp", Value.null, Ty.optInt⟩,
     ⟨"type", Value.str "connect_response", Ty.str⟩,
     ⟨"session_id", Value.str "", Ty.str⟩,
     ⟨"server_pubkey", Value.bytes [], Ty.bytes⟩,
     ⟨"accepted", Value.bool false, Ty.bool⟩,
     ⟨"resume_sequence", Value.int 0, Ty.int⟩,
     ⟨"status_code", Value.int 0, Ty.int⟩,
     ⟨"error_message", Value.null, Ty.optStr⟩,
     ⟨"server_capabilities", Value.list [], Ty.listStr⟩,
     ⟨"max_message_size", Value.int 1048576, Ty.int⟩,
     ⟨"ephemeral_pubkey", Value.null, Ty.optBytes⟩]
  | Kind.generic =>
    [⟨"version", Value.str "CPOR-2", Ty.str⟩,
     ⟨"message_id", Value.null, Ty.optStr⟩,
     ⟨"timestamp", Value.null, Ty.optInt⟩,
     ⟨"type", Value.str "generic", Ty.str⟩,
     ⟨"sequence_number", Value.int 0, Ty.int⟩,
     ⟨"payload", Value.bytes [], Ty.bytes⟩,
     ⟨"message_type", Value.str "data", Ty.str⟩,
     ⟨"priority", Value.int 0, Ty.int⟩,
     ⟨"requires_ack", Value.bool true, Ty.bool⟩]
  | Kind.resumeRequest =>
    [⟨"version", Value.str "CPOR-2", Ty.str⟩,
     ⟨"message_id", Value.null, Ty.optStr⟩,
     ⟨"timestamp", Value.null, Ty.optInt⟩,
     ⟨"type", Value.str "resume_request", Ty.str⟩,
     ⟨"client_id", Value.str "", Ty.str⟩,
     ⟨"last_sequence_number", Value.int 0, Ty.int⟩,
     ⟨"client_nonce", Value.bytes [], Ty.bytes⟩]
  | Kind.resumeResponse =>
    [⟨"version", Value.str "CPOR-2", Ty.str⟩,
     ⟨"message_id", Value.null, Ty.optStr⟩,
     ⟨"timestamp", Value.null, Ty.optInt⟩,
     ⟨"type", Value.str "resume_response", Ty.str⟩,
     ⟨"status_code", Value.int 0, Ty.int⟩,
     ⟨"resume_sequence", Value.int 0, Ty.int⟩,
     ⟨"error_message", Value.null, Ty.optStr⟩,
     ⟨"session_id", Value.str "", Ty.str⟩,
     ⟨"resume_accepted", Value.bool false, Ty.bool⟩,
     ⟨"server_nonce", Value.bytes [], Ty.bytes⟩]
  | Kind.batch =>
    [⟨"version", Value.str "CPOR-2", Ty.str⟩,
     ⟨"message_id", Value.null, Ty.optStr⟩,
     ⟨"timestamp", Value.null, Ty.optInt⟩,
     ⟨"type", Value.str "batch", Ty.str⟩,
     ⟨"messages", Value.list [], Ty.listMap⟩,
     ⟨"batch_id", Value.str "", Ty.str⟩,
     ⟨"total_count", Value.int 0, Ty.int⟩]
  | Kind.heartbeat =>
    [⟨"version", Value.str "CPOR-2", Ty.str⟩,
     ⟨"message_id", Value.null, Ty.optStr⟩,
     ⟨"timestamp", Value.null, Ty.optInt⟩,
     ⟨"type", Value.str "heartbeat", Ty.str⟩,
     ⟨"heartbeat_id", Value.str "", Ty.str⟩,
     ⟨"client_sequence", Value.int 0, Ty.int⟩,
     ⟨"server_sequence", Value.int 0, Ty.int⟩,
     ⟨"requires_response", Value.bool true, Ty.bool⟩]
  | Kind.close =>
    [⟨"version", Value.str "CPOR-2", Ty.str⟩,
     ⟨"message_id", Value.null, Ty.optStr⟩,
     ⟨"timestamp", Value.null, Ty.optInt⟩,
     ⟨"type", Value.str "close", Ty.str⟩,
     ⟨"reason", Value.str "", Ty.str⟩,
     ⟨"final_sequence", Value.null, Ty.optInt⟩,
     ⟨"graceful", Value.bool true, Ty.bool⟩]
  | Kind.ack =>
    [⟨"version", Value.str "CPOR-2", Ty.str⟩,
     ⟨"message_id", Value.null, Ty.optStr⟩,
     ⟨"timestamp", Value.null, Ty.optInt⟩,
     ⟨"type", Value.str "ack", Ty.str⟩,
     ⟨"ack_sequence", Value.int 0, Ty.int⟩,
     ⟨"ack_type", Value.str "message", Ty.str⟩,
     ⟨"error_code", Value.null, Ty.optInt⟩]
  | Kind.error =>
    [⟨"version", Value.str "CPOR-2", Ty.str⟩,
     ⟨"message_id", Value.null, Ty.optStr⟩,
     ⟨"timestamp", Value.null, Ty.optInt⟩,
     ⟨"type", Value.str "error", Ty.str⟩,
     ⟨"error_code", Value.int 0, Ty.int⟩,
     ⟨"error_message", Value.str "", Ty.str⟩,
     ⟨"severity", Value.str "error", Ty.str⟩,
     ⟨"recoverable", Value.bool true, Ty.bool⟩,
     ⟨"details", Value.null, Ty.optDict⟩]

/-- A constructed message instance: its class and the value of every declared
field, in dataclass order. -/
structure Msg where
  kind : Kind
  fields : List (String × Value)
deriving DecidableEq

/-- Attribute access `self.name` on a message (always hits a declared field for
the names the validators use). -/
def Msg.get (m : Msg) (n : String) : Value :=
  (m.fields.lookup n).getD Value.null

/-- Python `if cond: raise InvalidMessageError(s)`. -/
def chk (cond : Bool) (s : String) : Except Err Unit :=
  if cond then .error (.invalidMessage s) else .ok ()

/-- Sequencing of two validation steps: the first raised exception wins. -/
def seqE (a b : Except Err Unit) : Except Err Unit :=
  match a with
  | .ok _ => b
  | .error e => .error e

/-- Python `if self.x < 0: raise InvalidMessageError(s)`: `bool` compares as
0/1 (never negative); ordering a non-numeric value against `0` raises
`TypeError`. -/
def chkNeg (v : Value) (s : String) : Except Err Unit :=
  match v with
  | Value.int n => chk (decide (n < 0)) s
  | Value.bool _ => .ok ()
  | _ => .error (.typeError s)

/-- Python `if self.x <= 0: raise InvalidMessageError(s)` with the same
numeric semantics as `chkNeg`. -/
def chkLe0 (v : Value) (s : String) : Except Err Unit :=
  match v with
  | Value.int n => chk (decide (n ≤ 0)) s
  | Value.bool b => chk (!b) s
  | _ => .error (.typeError s)

/-- Python `if len(self.x) != n: raise InvalidMessageError(s)`; `len` of an
unsized value raises `TypeError`. -/
def chkLenNe (v : Value) (n : Nat) (s : String) : Except Err Unit :=
  match v.len? with
  | some l => chk (l != n) s
  | none => .error (.typeError s)

/-- Python `if len(self.x) < n: raise InvalidMessageError(s)`. -/
def chkLenLt (v : Value) (n : Nat) (s : String) : Except Err Unit :=
  match v.len? with
  | some l => chk (decide (l < n)) s
  | none => .error (.typeError s)

/-- Python `if len(self.x) > self.y: raise InvalidMessageError(s)`: `len` of an
unsized `x` or ordering against a non-numeric `y` raises `TypeError`. -/
def chkLenGt (v w : Value) (s : String) : Except Err Unit :=
  match v.len? with
  | some l =>
    match w with
    | Value.int n => chk (decide ((l : Int) > n)) s
    | Value.bool b => chk (decide ((l : Int) > (if b then 1 else 0))) s
    | _ => .error (.typeError s)
  | none => .error (.typeError s)

/-- `ConnectRequest._validate_fields`. -/
def validateConnectRequest (m : Msg) : Except Err Unit :=
  seqE (chk (!(m.get "type").eqStr "connect_request") "type must be connect_request")
  (seqE (chk (!(m.get "client_id").truthy) "client_id must be a non-empty string")
  (seqE (chk (!(m.get "client_pubkey").truthy) "client_pubkey must be non-empty bytes")
  (seqE (chkLenNe (m.get "client_pubkey") 32 "client_pubkey must be 32 bytes for Ed25519")
  (seqE (chk (!(m.get "nonce").truthy) "nonce must be non-empty bytes")
  (seqE (chkLenLt (m.get "nonce") 16 "nonce must be at least 16 bytes for security")
  (seqE (chk (!(m.get "key_storage").isNull &&
              !((m.get "key_storage").eqStr "tpm" || (m.get "key_storage").eqStr "software"))
             "key_storage must be tpm or software")
  (seqE (chkNeg (m.get "resume_sequence") "resume_sequence must be a non-negative integer")
        (chk (!(m.get "capabilities").isList) "capabilities must be a list"))))))))

/-- `ConnectResponse._validate_fields`. -/
def validateConnectResponse (m : Msg) : Except Err Unit :=
  seqE (chk (!(m.get "type").eqStr "connect_response") "type must be connect_response")
  (seqE (chk (!(m.get "session_id").truthy) "session_id must be a non-empty string")
  (seqE (chk (!(m.get "server_pubkey").truthy) "server_pubkey must be non-empty bytes")
  (seqE (chkLenNe (m.get "server_pubkey") 32 "server_pubkey must be 32 bytes for Ed25519")
  (seqE (chk ((m.get "status_code").neZero && !(m.get "error_message").truthy)
             "error_message required when status_code is nonzero")
  (seqE (chkLe0 (m.get "max_message_size") "max_message_size must be a positive integer")
  (seqE (chkNeg (m.get "resume_sequence") "resume_sequence must be a non-negative integer")
        (if (m.get "ephemeral_pubkey").isNull then .ok ()
         else chkLenNe (m.get "ephemeral_pubkey") 32 "ephemeral_pubkey must be 32 bytes for Ed25519")))))))

/-- `GenericMessage._validate_fields`. -/
def validateGeneric (m : Msg) : Except Err Unit :=
  seqE (chk (!(m.get "type").eqStr "generic") "type must be generic")
  (seqE (chkNeg (m.get "sequence_number") "sequence_number must be a non-negative integer")
  (seqE (chk (!(m.get "message_type").truthy) "message_type must be a non-empty string")
        (chk (!(m.get "payload").isBytes) "payload must be bytes")))

/-- `ResumeRequest._validate_fields`. -/
def validateResumeRequest (m : Msg) : Except Err Unit :=
  seqE (chk (!(m.get "type").eqStr "resume_request") "type must be resume_request")
  (seqE (chk (!(m.get "client_id").truthy) "client_id must be a non-empty string")
  (seqE (chkNeg (m.get "last_sequence_number") "last_sequence_number must be a non-negative integer")
  (seqE (chk (!(m.get "client_nonce").truthy) "client_nonce must be non-empty bytes")
        (chkLenLt (m.get "client_nonce") 16 "client_nonce must be at least 16 bytes"))))

/-- `ResumeResponse._validate_fields`. -/
def validateResumeResponse (m : Msg) : Except Err Unit :=
  seqE (chk (!(m.get "type").eqStr "resume_response") "type must be resume_response")
  (seqE (chk (!(m.get "session_id").truthy) "session_id must be a non-empty string")
  (seqE (chkNeg (m.get "resume_sequence") "resume_sequence must be a non-negative integer")
  (seqE (chk (!(m.get "server_nonce").truthy) "server_nonce must be non-empty bytes")
  (seqE (chkLenLt (m.get "server_nonce") 16 "server_nonce must be at least 16 bytes")
        (chk (!(m.get "resume_accepted").truthy && !(m.get "error_message").truthy)
             "error_message required when resume_accepted is False")))))

/-- `BatchMessage._validate_fields`. -/
def validateBatch (m : Msg) : Except Err Unit :=
  seqE (chk (!(m.get "type").eqStr "batch") "type must be batch")
  (seqE (chk (!(m.get "batch_id").truthy) "batch_id must be a non-empty string")
  (seqE (chkLe0 (m.get "total_count") "total_count must be a positive integer")
        (chkLenGt (m.get "messages") (m.get "total_count") "messages count cannot exceed total_count")))

/-- `HeartbeatMessage._validate_fields`. -/
def validateHeartbeat (m : Msg) : Except Err Unit :=
  seqE (chk (!(m.get "type").eqStr "heartbeat") "type must be heartbeat")
  (seqE (chk (!(m.get "heartbeat_id").truthy) "heartbeat_id must be a non-empty string")
  (seqE (chkNeg (m.get "client_sequence") "client_sequence must be a non-negative integer")
        (chkNeg (m.get "server_sequence") "server_sequence must be a non-negative integer")))

/-- `CloseMessage._validate_fields`. -/
def validateClose (m : Msg) : Except Err Unit :=
  seqE (chk (!(m.get "type").eqStr "close") "type must be close")
  (seqE (chk (!(m.get "reason").truthy) "reason must be a non-empty string")
        (if (m.get "final_sequence").isNull then .ok ()
         else chkNeg (m.get "final_sequence") "final_sequence must be a non-negative integer"))

/-- `AckMessage._validate_fields`. -/
def validateAck (m : Msg) : Except Err Unit :=
  seqE (chk (!(m.get "type").eqStr "ack") "type must be ack")
  (seqE (chkNeg (m.get "ack_sequence") "ack_sequence must be a non-negative integer")
  (seqE (chk (!(m.get "ack_type").truthy) "ack_type must be a non-empty string")
        (chk (!((m.get "ack_type").eqStr "message" || (m.get "ack_type").eqStr "heartbeat" ||
                (m.get "ack_type").eqStr "batch"))
             "ack_type must be one of: message, heartbeat, batch")))

/-- `ErrorMessage._validate_fields`. -/
def validateError (m : Msg) : Except Err Unit :=
  seqE (chk (!(m.get "type").eqStr "error") "type must be error")
  (seqE (chk (!(m.get "error_message").truthy) "error_message must be a non-empty string")
        (chk (!((m.get "severity").eqStr "warning" || (m.get "severity").eqStr "error" ||
                (m.get "severity").eqStr "fatal"))
             "severity must be one of: warning, error, fatal"))

/-- `BaseMessage.__post_init__`: the protocol-version check followed by the
subclass `_validate_fields`. -/
def validate (m : Msg) : Except Err Unit :=
  seqE (chk (!(m.get "version").eqStr "CPOR-2") "Invalid protocol version")
    (match m.kind with
     | Kind.connectRequest => validateConnectRequest m
     | Kind.connectResponse => validateConnectResponse m
     | Kind.generic => validateGeneric m
     | Kind.resumeRequest => validateResumeRequest m
     | Kind.resumeResponse => validateResumeResponse m
     | Kind.batch => validateBatch m
     | Kind.heartbeat => validateHeartbeat m
     | Kind.close => validateClose m
     | Kind.ack => validateAck m
     | Kind.error => validateError m)

/-- `BaseMessage.to_dict`: the field-name-keyed mapping of the message, in
dataclass-field order, with fields whose value is `None` omitted. -/
def to_dict (m : Msg) : List (String × Value) :=
  m.fields.filter (fun p => !p.2.isNull)

/-- The value a dataclass field receives in `from_dict`-style construction:
`data[name]` when present and not `None`, the declared default otherwise
(`from_dict` filters unknown keys and `None` values out of the keyword
arguments, so each declared field falls back to its default exactly in those
cases). -/
def fieldVal (data : List (String × Value)) (p : FieldInfo) : Value :=
  match data.lookup p.name with
  | some v => if v.isNull then p.dflt else v
  | none => p.dflt

/-- The (not yet validated) instance `cls(**valid_fields)` built by
`BaseMessage.from_dict` from a decoded mapping. -/
def fromDictRaw (k : Kind) (data : List (String × Value)) : Msg :=
  ⟨k, (fieldSpec k).map (fun p => (p.name, fieldVal data p))⟩

/-- `BaseMessage.from_dict`: construct from a decoded mapping, ignoring
unknown keys and `None` values; `__post_init__` validation runs on the result,
and a `TypeError` escaping construction is re-raised as
`InvalidMessageError`. -/
def from_dict (k : Kind) (data : List (String × Value)) : Except Err Msg :=
  let m := fromDictRaw k data
  match validate m with
  | .ok _ => .ok m
  | .error (.typeError s) => .error (.invalidMessage ("Invalid message data: " ++ s))
  | .error e => .error e

/-- Direct construction `Cls(**kwargs)` by application code: keyword arguments
override the declared defaults (no filtering of `None` values here, unlike
`from_dict`), then `__post_init__` validates. -/
def constructMsg (k : Kind) (kwargs : List (String × Value)) : Msg :=
  ⟨k, (fieldSpec k).map (fun p => (p.name, (kwargs.lookup p.name).getD p.dflt))⟩

/-- Direct construction including the `__post_init__` validation gate. -/
def mkMessage (k : Kind) (kwargs : List (String × Value)) : Except Err Msg :=
  let m := constructMsg k kwargs
  match validate m with
  | .ok _ => .ok m
  | .error e => .error e

/-- The closed `type_mapping` table of `_infer_message_type`: discriminant
string to message class, ten entries. -/
def type_mapping : List (String × Kind) :=
  [("connect_request", Kind.connectRequest),
   ("connect_response", Kind.connectResponse),
   ("generic", Kind.generic),
   ("resume_request", Kind.resumeRequest),
   ("resume_response", Kind.resumeResponse),
   ("batch", Kind.batch),
   ("heartbeat", Kind.heartbeat),
   ("close", Kind.close),
   ("ack", Kind.ack),
   ("error", Kind.error)]

/-- Python `"k" in data` for a decoded mapping. -/
def hasKey (data : List (String × Value)) (k : String) : Bool :=
  (data.lookup k).isSome

/-- The structural-fallback half of `_infer_message_type`: the fixed, ordered
sequence of field-presence predicates; the first match wins, and no match
raises `InvalidMessageError`. -/
def structuralInfer (d : List (String × Value)) : Except Err Kind :=
  if hasKey d "client_id" && (hasKey d "client_pubkey" || hasKey d "public_key") then
    .ok Kind.connectRequest
  else if hasKey d "session_id" && hasKey d "accepted" &&
          (hasKey d "server_pubkey" || hasKey d "server_public_key") then
    .ok Kind.connectResponse
  else if (hasKey d "sequence_number" || hasKey d "sequence_counter") && hasKey d "payload" then
    .ok Kind.generic
  else if (hasKey d "last_sequence_number" || hasKey d "last_received_sequence") &&
          hasKey d "client_nonce" then
    .ok Kind.resumeRequest
  else if (hasKey d "resume_accepted" || hasKey d "status_code") &&
          (hasKey d "server_nonce" || hasKey d "resume_sequence") then
    .ok Kind.resumeResponse
  else if hasKey d "messages" && hasKey d "batch_id" then
    .ok Kind.batch
  else if hasKey d "heartbeat_id" || (hasKey d "timestamp" && !hasKey d "type") then
    .ok Kind.heartbeat
  else if hasKey d "reason" && (hasKey d "graceful" || hasKey d "final_sequence") then
    .ok Kind.close
  else if hasKey d "ack_sequence" || hasKey d "ack_counter" then
    .ok Kind.ack
  else if hasKey d "error_code" && (hasKey d "error_message" || hasKey d "message") then
    .ok Kind.error
  else
    .error (.invalidMessage "Cannot determine message type from data")

/-- `_infer_message_type`: if a `type` key is present and its value is one of
the ten known discriminant strings, the table decides; otherwise (no `type`
key, a non-string value, or an unknown string) control falls through to the
structural fallback. -/
def _infer_message_type (data : List (String × Value)) : Except Err Kind :=
  match data.lookup "type" with
  | some (Value.str s) =>
    match type_mapping.lookup s with
    | some k => .ok k
    | none => structuralInfer data
  | some _ => structuralInfer data
  | none => structuralInfer data

/-- The byte strings handed to the codec.  The external `cbor2` codec is
modelled symbolically: `cborOf v` is the canonical encoding of the decoded
value `v` (canonical CBOR is injective, which the constructor gives us), and
`raw bs` is a byte string that is not a canonical encoding of anything. -/
inductive Bytes where
  | raw (bs : List Nat) : Bytes
  | cborOf (v : Value) : Bytes
deriving DecidableEq

/-- Modelled from the spec: `cbor2.loads`, the external codec's decoder —
inverts `cborOf` and raises a decode error on any other byte string. -/
def cborLoads : Bytes → Except Err Value
  | Bytes.cborOf v => .ok v
  | Bytes.raw _ => .error (.serialization "Failed to decode CBOR data")

/-- `parse_message`: decode the bytes, require a mapping, infer the message
class, and build it via `from_dict` (the registry lookup between inference and
construction always succeeds, since `_infer_message_type` only returns
registered names). -/
def parse_message (cbor_data : Bytes) : Except Err Msg :=
  match cborLoads cbor_data with
  | .error e => .error e
  | .ok (Value.map data) =>
    match _infer_message_type data with
    | .error e => .error e
    | .ok k => from_dict k data
  | .ok _ => .error (.serialization "Failed to decode CBOR data: CBOR data must be a dictionary")

/-- Modelled from the spec: an Ed25519 signature value.  The external PyNaCl
primitive is ideal Ed25519 (glossary: 32-byte public keys, 64-byte
signatures); `genuine seed data` is the (deterministic) signature produced by
the signing key `seed` over `data` — always 64 bytes on the wire — while
`rawSig bs` is any other byte string presented as a signature. -/
inductive SigBytes where
  | genuine (seed : List Nat) (data : Bytes) : SigBytes
  | rawSig (bs : List Nat) : SigBytes
deriving DecidableEq

/-- Python `len(signature)`. -/
def SigBytes.length : SigBytes → Nat
  | .genuine _ _ => 64
  | .rawSig bs => bs.length

/-- Modelled from the spec: the verify-key bytes belonging to a signing key.
The symbolic model identifies the two (only the pairing between a signing key
and its verify key matters to the claims, not key secrecy). -/
def pubOf (seed : List Nat) : List Nat := seed

/-- Outcome of the raw PyNaCl `VerifyKey.verify` call. -/
inductive NaclResult where
  | ok : NaclResult
  | badSignature : NaclResult
  | valueError : NaclResult
deriving DecidableEq

/-- Modelled from the spec: PyNaCl `VerifyKey.verify`. It rejects a signature
that is not exactly 64 bytes with a `ValueError`; otherwise ideal Ed25519: the
signature verifies exactly when it is the genuine signature of this key over
these bytes, and a `BadSignatureError` is raised otherwise. -/
def naclVerify (vkBytes : List Nat) (data : Bytes) (sig : SigBytes) : NaclResult :=
  if sig.length ≠ 64 then NaclResult.valueError
  else
    match sig with
    | SigBytes.genuine seed d =>
      if pubOf seed = vkBytes ∧ d = data then NaclResult.ok else NaclResult.badSignature
    | SigBytes.rawSig _ => NaclResult.badSignature

/-- `BaseMessage.to_cbor`: `cbor2.dumps(self.to_dict())`. -/
def Msg.to_cbor (m : Msg) : Bytes :=
  Bytes.cborOf (Value.map (to_dict m))

/-- `BaseMessage.sign`: Ed25519 signature over the canonical encoding. -/
def Msg.sign (m : Msg) (signing_key : List Nat) : SigBytes :=
  SigBytes.genuine signing_key m.to_cbor

/-- `BaseMessage.verify_signature`: re-encode and verify; a
`BadSignatureError` is `false`, any other exception out of the primitive
(e.g. the wrong-length `ValueError`) is re-raised as `SignatureError`. -/
def Msg.verify_signature (m : Msg) (signature : SigBytes) (verify_key : List Nat) :
    Except Err Bool :=
  match naclVerify verify_key m.to_cbor signature with
  | NaclResult.ok => .ok true
  | NaclResult.badSignature => .ok false
  | NaclResult.valueError => .error (.signatureError "Failed to verify signature")

end Cpor

namespace Crypto

open Cpor (Value Bytes SigBytes NaclResult naclVerify pubOf)

/-- The exceptions raised by `crypto.py`.  `tpm notFound msg` is a `TPMError`;
the flag records whether its message contains the substring "not found", which
is what `sign_data` tests with `"not found" in str(e)` (the stub's messages
contain it exactly for its key-not-found errors). -/
inductive CryptoErr where
  | keyGeneration (msg : String) : CryptoErr
  | signing (msg : String) : CryptoErr
  | verification (msg : String) : CryptoErr
  | tpm (notFound : Bool) (msg : String) : CryptoErr
  | keyStorage (msg : String) : CryptoErr
deriving DecidableEq

/-- `KeyPair`: Ed25519 key pair container (`private_key` is the `SigningKey`
seed, `public_key` the `VerifyKey` bytes). -/
structure KeyPair where
  private_key : List Nat
  public_key : List Nat
  key_id : String
  storage_type : String
deriving DecidableEq

/-- `KeyPair.private_key_bytes`: private key material is exported for software
storage only; for `tpm` storage the accessor raises `KeyStorageError`. -/
def KeyPair.private_key_bytes (kp : KeyPair) : Except CryptoErr (List Nat) :=
  if kp.storage_type = "tpm" then
    .error (.keyStorage "Cannot export private key from TPM storage")
  else .ok kp.private_key

/-- Python dict assignment `d[k] = v`: replaces in place, appends if absent. -/
def dictInsert {α : Type} (k : String) (v : α) : List (String × α) → List (String × α)
  | [] => [(k, v)]
  | (k2, v2) :: t => if k2 = k then (k, v) :: t else (k2, v2) :: dictInsert k v t

/-- The `TPMStub` state: its `_keys` dict (key id to stored signing key) and
its `_available` flag. -/
structure TPMState where
  keys : List (String × List Nat)
  available : Bool
deriving DecidableEq

/-- `TPMStub.is_available`. -/
def TPMStub.is_available (t : TPMState) : Bool := t.available

/-- `TPMStub.generate_key`: a duplicate identifier raises `TPMError`;
otherwise the freshly generated signing key (passed in explicitly, as the
randomness of `SigningKey.generate` is external) is stored and the public key
returned. -/
def TPMStub.generate_key (t : TPMState) (key_id : String) (freshSeed : List Nat) :
    Except CryptoErr (List Nat × TPMState) :=
  if (t.keys.lookup key_id).isSome then
    .error (.tpm false ("Key " ++ key_id ++ " already exists in TPM"))
  else
    .ok (pubOf freshSeed, ⟨dictInsert key_id freshSeed t.keys, t.available⟩)

/-- `TPMStub.sign`: an unknown identifier raises the not-found `TPMError`;
otherwise the stored key signs. -/
def TPMStub.sign (t : TPMState) (key_id : String) (data : Bytes) :
    Except CryptoErr SigBytes :=
  match t.keys.lookup key_id with
  | none => .error (.tpm true ("Key " ++ key_id ++ " not found in TPM"))
  | some seed => .ok (SigBytes.genuine seed data)

/-- `TPMStub.delete_key`. -/
def TPMStub.delete_key (t : TPMState) (key_id : String) : Bool × TPMState :=
  if (t.keys.lookup key_id).isSome then
    (true, ⟨t.keys.filter (fun p => p.1 ≠ key_id), t.available⟩)
  else (false, t)

/-- The `CryptoManager` state: the TPM interface (the stub) and the
`_software_keys` dict. -/
structure ManagerState where
  tpm : TPMState
  software_keys : List (String × KeyPair)
deriving DecidableEq

/-- `CryptoManager._generate_software_keypair`: build the pair from a fresh
signing key and store it in `_software_keys` (a plain dict assignment, so an
existing entry under the same identifier is replaced). -/
def _generate_software_keypair (st : ManagerState) (key_id : String)
    (freshSeed : List Nat) : KeyPair × ManagerState :=
  let keypair : KeyPair := ⟨freshSeed, pubOf freshSeed, key_id, "software"⟩
  (keypair, ⟨st.tpm, dictInsert key_id keypair st.software_keys⟩)

/-- `CryptoManager._generate_tpm_keypair`: generate inside the TPM (its
errors are wrapped into `KeyGenerationError`); the returned pair carries a
dummy all-zero signing key and is not stored in `_software_keys`. -/
def _generate_tpm_keypair (st : ManagerState) (key_id : String)
    (freshSeed : List Nat) : Except CryptoErr (KeyPair × ManagerState) :=
  match TPMStub.generate_key st.tpm key_id freshSeed with
  | .error _ => .error (.keyGeneration ("Failed to generate TPM key pair " ++ key_id))
  | .ok (pub, tpm2) =>
    .ok (⟨List.replicate 32 0, pub, key_id, "tpm"⟩, ⟨tpm2, st.software_keys⟩)

/-- `CryptoManager.generate_keypair`: an unknown storage type raises
`KeyGenerationError`; `tpm` with an unavailable store silently falls back to
software storage (logging a warning); otherwise the requested storage is
used. -/
def generate_keypair (st : ManagerState) (key_id : String) (storage_type : String)
    (freshSeed : List Nat) : Except CryptoErr (KeyPair × ManagerState) :=
  if storage_type ≠ "software" ∧ storage_type ≠ "tpm" then
    .error (.keyGeneration "storage_type must be software or tpm")
  else if storage_type = "tpm" then
    if !(TPMStub.is_available st.tpm) then
      .ok (_generate_software_keypair st key_id freshSeed)
    else
      _generate_tpm_keypair st key_id freshSeed
  else
    .ok (_generate_software_keypair st key_id freshSeed)

/-- `CryptoManager.sign_data`: the software keystore is consulted first, then
the TPM (only when available); a not-found `TPMError`, or an unavailable TPM,
ends in `KeyStorageError`; any other `TPMError` is re-raised as
`SigningError`. -/
def sign_data (st : ManagerState) (key_id : String) (data : Bytes) :
    Except CryptoErr SigBytes :=
  match st.software_keys.lookup key_id with
  | some keypair => .ok (SigBytes.genuine keypair.private_key data)
  | none =>
    if TPMStub.is_available st.tpm then
      match TPMStub.sign st.tpm key_id data with
      | .ok sig => .ok sig
      | .error (.tpm true _) =>
        .error (.keyStorage ("Key " ++ key_id ++ " not found in any storage"))
      | .error (.tpm false _) =>
        .error (.signing ("Failed to sign with TPM key " ++ key_id))
      | .error e => .error e
    else
      .error (.keyStorage ("Key " ++ key_id ++ " not found in any storage"))

/-- `CryptoManager.verify_signature` (raw 32-byte public key input): malformed
lengths raise `VerificationError`; a `BadSignatureError` from the primitive is
the boolean `false`; a successful verification is `true`. -/
def verify_signature (public_key : List Nat) (data : Bytes) (signature : SigBytes) :
    Except CryptoErr Bool :=
  if public_key.length ≠ 32 then .error (.verification "Public key must be 32 bytes")
  else if signature.length ≠ 64 then .error (.verification "Signature must be 64 bytes")
  else
    match naclVerify public_key data signature with
    | NaclResult.ok => .ok true
    | NaclResult.badSignature => .ok false
    | NaclResult.valueError => .error (.verification "Signature verification failed")

/-- `CryptoManager.list_keys`: only software-stored key identifiers. -/
def list_keys (st : ManagerState) : List String :=
  st.software_keys.map Prod.fst

end Crypto

namespace Cpor

/-- A field assignment is well formed when the instance carries exactly the
declared fields of its class, in order, each holding a value of the field's
annotated type (this is what "valid field assignment" means beyond the runtime
validators, which Python cannot check). -/
def wellFormed (m : Msg) : Bool :=
  decide (m.fields.map Prod.fst = (fieldSpec m.kind).map FieldInfo.name) &&
  (m.fields.zip (fieldSpec m.kind)).all (fun fp => Ty.matches fp.2.ty fp.1.2)

/-- A concrete valid `HeartbeatMessage` instance. -/
def hbMsg : Msg :=
  ⟨Kind.heartbeat,
   [("version", Value.str "CPOR-2"), ("message_id", Value.null), ("timestamp", Value.null),
    ("type", Value.str "heartbeat"), ("heartbeat_id", Value.str "hb-001"),
    ("client_sequence", Value.int 5), ("server_sequence", Value.int 3),
    ("requires_response", Value.bool true)]⟩

/-- A decoded mapping carrying a `CloseMessage` payload. -/
def closeData : List (String × Value) :=
  [("reason", Value.str "shutdown"), ("graceful", Value.bool true)]

/-- A decoded mapping whose discriminant field is `None` (not one of the ten
known discriminant strings) next to a heartbeat-shaped field. -/
def nullDiscriminantData : List (String × Value) :=
  [("type", Value.null), ("heartbeat_id", Value.str "h1")]

/-- A concrete valid `CloseMessage` instance. -/
def closeMsgC2 : Msg :=
  ⟨Kind.close,
   [("version", Value.str "CPOR-2"), ("message_id", Value.null), ("timestamp", Value.null),
    ("type", Value.str "close"), ("reason", Value.str "done"), ("final_sequence", Value.null),
    ("graceful", Value.bool true)]⟩

/-- A second valid `CloseMessage` with a different payload (mutated `reason`). -/
def closeMsgC2b : Msg :=
  ⟨Kind.close,
   [("version", Value.str "CPOR-2"), ("message_id", Value.null), ("timestamp", Value.null),
    ("type", Value.str "close"), ("reason", Value.str "bye"), ("final_sequence", Value.null),
    ("graceful", Value.bool true)]⟩

end Cpor

namespace Crypto

/-- A manager whose TPM reports unavailable and whose stores are empty. -/
def fallbackState : ManagerState := ⟨⟨[], false⟩, []⟩

/-- A manager holding one key inside the (unavailable) TPM store and nothing
in the software keystore. -/
def tpmOnlyState : ManagerState := ⟨⟨[("k1", List.replicate 32 5)], false⟩, []⟩

/-- A manager that already holds the identifier "k1" both in the software
keystore and in the (available) TPM store. -/
def dupState : ManagerState :=
  ⟨⟨[("k1", List.replicate 32 5)], true⟩,
   [("k1", ⟨List.replicate 32 6, List.replicate 32 6, "k1", "software"⟩)]⟩

end Crypto

namespace Cpor

theorem isNull_false_iff {v : Value} : v.isNull = false ↔ v ≠ Value.null := by
  cases v <;> simp [Value.isNull]

theorem lookup_eq_none_of_not_mem {β : Type} {l : List (String × β)} {a : String}
    (h : a ∉ l.map Prod.fst) : l.lookup a = none := by
  induction l with
  | nil => rfl
  | cons q t ih =>
    obtain ⟨k, v⟩ := q
    simp only [List.map_cons, List.mem_cons, not_or] at h
    rw [List.lookup_cons, beq_false_of_ne h.1]
    exact ih h.2

theorem lookup_filter_eq_none {β : Type} {l : List (String × β)} {a : String}
    (p : String × β → Bool) (h : a ∉ l.map Prod.fst) : (l.filter p).lookup a = none := by
  apply lookup_eq_none_of_not_mem
  intro hmem
  obtain ⟨q, hq, hfst⟩ := List.mem_map.mp hmem
  exact h (List.mem_map.mpr ⟨q, (List.mem_filter.mp hq).1, hfst⟩)

theorem fields_roundtrip (spec : List FieldInfo) (fs : List (String × Value))
    (h1 : fs.map Prod.fst = spec.map FieldInfo.name)
    (h2 : ∀ fp ∈ fs.zip spec, fp.1.2 = Value.null → fp.2.dflt = Value.null)
    (hnd : (spec.map FieldInfo.name).Nodup) :
    spec.map (fun p => (p.name, fieldVal (fs.filter (fun q => !q.2.isNull)) p)) = fs := by
  induction spec generalizing fs with
  | nil =>
    cases fs with
    | nil => rfl
    | cons f t => simp at h1
  | cons p spec' ih =>
    cases fs with
    | nil => simp at h1
    | cons f fs' =>
      obtain ⟨fn, fv⟩ := f
      simp only [List.map_cons, List.cons.injEq] at h1
      obtain ⟨hfn, htl⟩ := h1
      simp only [List.map_cons, List.nodup_cons] at hnd
      obtain ⟨hp, hnd'⟩ := hnd
      have hnotmem : p.name ∉ fs'.map Prod.fst := by rw [htl]; exact hp
      have h2' : ∀ fp ∈ fs'.zip spec', fp.1.2 = Value.null → fp.2.dflt = Value.null := by
        intro fp hm
        exact h2 fp (by simp [hm])
      by_cases hfv : fv = Value.null
      · subst hfv
        have hdf : p.dflt = Value.null := h2 ((fn, Value.null), p) (by simp) rfl
        have hfilter : ((fn, Value.null) :: fs').filter (fun q => !q.2.isNull) =
            fs'.filter (fun q => !q.2.isNull) := by
          simp [List.filter, Value.isNull]
        have hhead : fieldVal (fs'.filter (fun q => !q.2.isNull)) p = Value.null := by
          unfold fieldVal
          rw [lookup_filter_eq_none _ hnotmem, hdf]
        rw [List.map_cons, hfilter, hhead, ih fs' htl h2' hnd', ← hfn]
      · have hfvb : Value.isNull fv = false := isNull_false_iff.mpr hfv
        have hfilter : ((fn, fv) :: fs').filter (fun q => !q.2.isNull) =
            (fn, fv) :: fs'.filter (fun q => !q.2.isNull) := by
          simp [List.filter, hfvb]
        have hhead : fieldVal ((fn, fv) :: fs'.filter (fun q => !q.2.isNull)) p = fv := by
          unfold fieldVal
          rw [List.lookup_cons]
          have : (p.name == fn) = true := by rw [hfn]; exact beq_self_eq_true p.name
          rw [this]
          simp [hfvb]
        have htail : ∀ q ∈ spec',
            fieldVal ((fn, fv) :: fs'.filter (fun r => !r.2.isNull)) q =
            fieldVal (fs'.filter (fun r => !r.2.isNull)) q := by
          intro q hq
          have hqn : q.name ≠ fn := by
            intro he
            apply hp
            rw [← hfn, ← he]
            exact List.mem_map.mpr ⟨q, hq, rfl⟩
          unfold fieldVal
          rw [List.lookup_cons, beq_false_of_ne hqn]
        rw [List.map_cons, hfilter, hhead,
            List.map_congr_left (fun q hq => by rw [htail q hq]),
            ih fs' htl h2' hnd', ← hfn]

theorem Ty.nullable_of_matches_null {t : Ty} (h : Ty.matches t Value.null = true) :
    t.nullable = true := by
  cases t <;> simp [Ty.matches, Ty.nullable] at h ⊢

theorem spec_nullable_dflt :
    ∀ k : Kind, ∀ p ∈ fieldSpec k, p.ty.nullable = true → p.dflt = Value.null := by
  intro k
  cases k <;> decide

theorem spec_names_nodup : ∀ k : Kind, ((fieldSpec k).map FieldInfo.name).Nodup := by
  intro k
  cases k <;> decide

/-- C1: for every message kind and every well-formed field assignment that
passes construction validation, decoding the canonical encoding (the
field-ordered mapping with unset optional fields omitted) restores the
original message, unset optional fields included: decode(encode(m)) = m. -/
theorem decode_encode_roundtrip (m : Msg) (hw : wellFormed m = true)
    (hv : validate m = Except.ok ()) :
    from_dict m.kind (to_dict m) = Except.ok m := by
  unfold wellFormed at hw
  rw [Bool.and_eq_true] at hw
  obtain ⟨h1, h2⟩ := hw
  rw [decide_eq_true_iff] at h1
  rw [List.all_eq_true] at h2
  have hz : ∀ fp ∈ m.fields.zip (fieldSpec m.kind),
      fp.1.2 = Value.null → fp.2.dflt = Value.null := by
    intro fp hm hnull
    have hmatch := h2 fp hm
    rw [hnull] at hmatch
    exact spec_nullable_dflt m.kind fp.2 (List.of_mem_zip hm).2
      (Ty.nullable_of_matches_null hmatch)
  have hfix := fields_roundtrip (fieldSpec m.kind) m.fields h1 hz (spec_names_nodup m.kind)
  have hraw : fromDictRaw m.kind (to_dict m) = m := by
    obtain ⟨k, fs⟩ := m
    unfold fromDictRaw to_dict
    exact congrArg (Msg.mk k) hfix
  unfold from_dict
  rw [hraw]
  simp only [hv]

/-- C1 witness: the round trip evaluated on a concrete heartbeat message. -/
theorem decode_encode_roundtrip_witness :
    wellFormed hbMsg = true ∧ validate hbMsg = Except.ok () ∧
    from_dict Kind.heartbeat (to_dict hbMsg) = Except.ok hbMsg :=
  ⟨by decide, by decide, decode_encode_roundtrip hbMsg (by decide) (by decide)⟩

/-- C10: building a message from a decoded mapping ignores keys that are not
declared fields of the kind, and ignores entries whose value is `None`; adding
such an entry to a payload never changes the outcome of decoding. -/
theorem from_dict_ignores_unknown_and_null (k : Kind) (data : List (String × Value))
    (key : String) (v : Value) :
    (key ∉ (fieldSpec k).map FieldInfo.name →
      from_dict k ((key, v) :: data) = from_dict k data) ∧
    (data.lookup key = none →
      from_dict k ((key, Value.null) :: data) = from_dict k data) := by
  have hraw : ∀ w : Value,
      (key ∉ (fieldSpec k).map FieldInfo.name ∨ (w = Value.null ∧ data.lookup key = none)) →
      fromDictRaw k ((key, w) :: data) = fromDictRaw k data := by
    intro w hcase
    unfold fromDictRaw
    apply congrArg (Msg.mk k)
    apply List.map_congr_left
    intro p hp
    unfold fieldVal
    by_cases hpk : p.name = key
    · rcases hcase with hnm | ⟨hwn, hnone⟩
      · exact absurd (hpk ▸ List.mem_map.mpr ⟨p, hp, rfl⟩) hnm
      · subst hwn
        rw [List.lookup_cons, hpk, beq_self_eq_true, hnone]
        simp [Value.isNull]
    · rw [List.lookup_cons, beq_false_of_ne hpk]
  constructor
  · intro h
    simp only [from_dict]
    rw [hraw v (Or.inl h)]
  · intro h
    simp only [from_dict]
    rw [hraw Value.null (Or.inr ⟨rfl, h⟩)]

/-- C10 witness: an unknown key and an explicit `None` entry added to a close
payload leave decoding unchanged. -/
theorem from_dict_ignores_witness :
    ("zzz" ∉ (fieldSpec Kind.close).map FieldInfo.name) ∧
    from_dict Kind.close (("zzz", Value.int 7) :: closeData) = from_dict Kind.close closeData ∧
    closeData.lookup "final_sequence" = none ∧
    from_dict Kind.close (("final_sequence", Value.null) :: closeData) =
      from_dict Kind.close closeData :=
  ⟨by decide,
   (from_dict_ignores_unknown_and_null Kind.close closeData "zzz" (Value.int 7)).1 (by decide),
   by decide,
   (from_dict_ignores_unknown_and_null Kind.close closeData "final_sequence" Value.null).2
     (by decide)⟩

end Cpor

namespace Cpor

theorem mkBatch_eval (ms : List Value) (b : String) (n : Int) :
    mkMessage Kind.batch [("messages", Value.list ms), ("batch_id", Value.str b),
      ("total_count", Value.int n)] =
    (if b = "" then Except.error (Err.invalidMessage "batch_id must be a non-empty string")
     else if n ≤ 0 then Except.error (Err.invalidMessage "total_count must be a positive integer")
     else if (ms.length : Int) > n then
       Except.error (Err.invalidMessage "messages count cannot exceed total_count")
     else Except.ok (constructMsg Kind.batch [("messages", Value.list ms),
       ("batch_id", Value.str b), ("total_count", Value.int n)])) := by
  have hm : mkMessage Kind.batch [("messages", Value.list ms), ("batch_id", Value.str b),
      ("total_count", Value.int n)] =
      (match seqE (chk (!(b != "")) "batch_id must be a non-empty string")
          (seqE (chk (decide (n ≤ 0)) "total_count must be a positive integer")
            (chk (decide ((ms.length : Int) > n)) "messages count cannot exceed total_count")) with
       | .ok _ => Except.ok (constructMsg Kind.batch [("messages", Value.list ms),
           ("batch_id", Value.str b), ("total_count", Value.int n)])
       | .error e => Except.error e) := rfl
  by_cases hb : b = ""
  · subst hb
    rw [if_pos rfl, hm]
    simp [chk, seqE]
  · have hbne : (b != "") = true := bne_iff_ne.mpr hb
    rw [if_neg hb, hm, hbne]
    by_cases hn : n ≤ 0
    · rw [if_pos hn, decide_eq_true hn]
      simp [chk, seqE]
    · rw [if_neg hn, decide_eq_false hn]
      by_cases hlen : (ms.length : Int) > n
      · rw [if_pos hlen, decide_eq_true hlen]
        simp [chk, seqE]
      · rw [if_neg hlen, decide_eq_false hlen]
        simp [chk, seqE]

/-- C6: constructing a `BatchMessage` succeeds exactly when `batch_id` is
non-empty, `total_count` is positive, and the number of messages does not
exceed `total_count`; in every other case construction fails with
`InvalidMessageError`. -/
theorem batch_construction_conditions (ms : List Value) (b : String) (n : Int) :
    ((∃ m, mkMessage Kind.batch [("messages", Value.list ms), ("batch_id", Value.str b),
        ("total_count", Value.int n)] = Except.ok m) ↔
      b ≠ "" ∧ 0 < n ∧ (ms.length : Int) ≤ n) ∧
    (¬(b ≠ "" ∧ 0 < n ∧ (ms.length : Int) ≤ n) →
      ∃ s, mkMessage Kind.batch [("messages", Value.list ms), ("batch_id", Value.str b),
        ("total_count", Value.int n)] = Except.error (Err.invalidMessage s)) := by
  rw [mkBatch_eval]
  constructor
  · constructor
    · rintro ⟨m, hm⟩
      by_cases h1 : b = ""
      · rw [if_pos h1] at hm
        exact absurd hm (by simp)
      · by_cases h2 : n ≤ 0
        · rw [if_neg h1, if_pos h2] at hm
          exact absurd hm (by simp)
        · by_cases h3 : (ms.length : Int) > n
          · rw [if_neg h1, if_neg h2, if_pos h3] at hm
            exact absurd hm (by simp)
          · exact ⟨h1, by omega, by omega⟩
    · rintro ⟨hb, hn, hlen⟩
      rw [if_neg hb, if_neg (by omega), if_neg (by omega)]
      exact ⟨_, rfl⟩
  · intro h
    by_cases h1 : b = ""
    · rw [if_pos h1]
      exact ⟨_, rfl⟩
    · by_cases h2 : n ≤ 0
      · rw [if_neg h1, if_pos h2]
        exact ⟨_, rfl⟩
      · by_cases h3 : (ms.length : Int) > n
        · rw [if_neg h1, if_neg h2, if_pos h3]
          exact ⟨_, rfl⟩
        · exact absurd ⟨h1, by omega, by omega⟩ h

/-- C6 witness: `BatchMessage(messages=[dict, dict, dict], batch_id="b1",
total_count=2)` fails with `InvalidMessageError`. -/
theorem batch_construction_witness :
    (¬(("b1" : String) ≠ "" ∧ (0 : Int) < 2 ∧
        (([Value.map [], Value.map [], Value.map []].length : Int) ≤ 2))) ∧
    ∃ s, mkMessage Kind.batch
        [("messages", Value.list [Value.map [], Value.map [], Value.map []]),
         ("batch_id", Value.str "b1"), ("total_count", Value.int 2)] =
      Except.error (Err.invalidMessage s) :=
  ⟨by decide,
   (batch_construction_conditions [Value.map [], Value.map [], Value.map []] "b1" 2).2
     (by decide)⟩

/-- C3 counterexample: a decoded mapping that contains a discriminant field
whose value (`None`) is not one of the ten known discriminant strings, yet
`parse_message` succeeds — the null entry is filtered out by `from_dict` and
the structural fallback builds a `HeartbeatMessage` — so the claim that such a
mapping always fails with `InvalidMessage` is false, as is the claim that the
structural fallback runs only when no discriminant is present. -/
theorem parse_null_discriminant_succeeds :
    parse_message (Bytes.cborOf (Value.map nullDiscriminantData)) =
      Except.ok (fromDictRaw Kind.heartbeat nullDiscriminantData) := rfl

set_option maxHeartbeats 1000000 in
theorem structuralInfer_error {d : List (String × Value)} {e : Err}
    (h : structuralInfer d = Except.error e) :
    e = Err.invalidMessage "Cannot determine message type from data" := by
  unfold structuralInfer at h
  split_ifs at h
  exact (Except.error.inj h).symm

theorem get_type_fromDictRaw (k : Kind) (data : List (String × Value)) (s : String)
    (hty : data.lookup "type" = some (Value.str s)) :
    (fromDictRaw k data).get "type" = Value.str s := by
  cases k <;>
    simp [fromDictRaw, fieldSpec, Msg.get, List.lookup, fieldVal, hty, Value.isNull]

theorem validate_type_mismatch (m : Msg) (s : String)
    (hget : m.get "type" = Value.str s)
    (hne : s ∉ type_mapping.map Prod.fst) :
    ∃ msg, validate m = Except.error (Err.invalidMessage msg) := by
  have b1 : (s == "connect_request") = false :=
    beq_false_of_ne (fun h => hne (h ▸ (by decide)))
  have b2 : (s == "connect_response") = false :=
    beq_false_of_ne (fun h => hne (h ▸ (by decide)))
  have b3 : (s == "generic") = false :=
    beq_false_of_ne (fun h => hne (h ▸ (by decide)))
  have b4 : (s == "resume_request") = false :=
    beq_false_of_ne (fun h => hne (h ▸ (by decide)))
  have b5 : (s == "resume_response") = false :=
    beq_false_of_ne (fun h => hne (h ▸ (by decide)))
  have b6 : (s == "batch") = false :=
    beq_false_of_ne (fun h => hne (h ▸ (by decide)))
  have b7 : (s == "heartbeat") = false :=
    beq_false_of_ne (fun h => hne (h ▸ (by decide)))
  have b8 : (s == "close") = false :=
    beq_false_of_ne (fun h => hne (h ▸ (by decide)))
  have b9 : (s == "ack") = false :=
    beq_false_of_ne (fun h => hne (h ▸ (by decide)))
  have b10 : (s == "error") = false :=
    beq_false_of_ne (fun h => hne (h ▸ (by decide)))
  unfold validate
  cases hver : (m.get "version").eqStr "CPOR-2"
  · exact ⟨"Invalid protocol version", by simp [chk, seqE, hver]⟩
  · obtain ⟨k, fs⟩ := m
    cases k
    case connectRequest => exact ⟨"type must be connect_request",
      by simp [validateConnectRequest, chk, seqE, hver, hget, Value.eqStr, b1]⟩
    case connectResponse => exact ⟨"type must be connect_response",
      by simp [validateConnectResponse, chk, seqE, hver, hget, Value.eqStr, b2]⟩
    case generic => exact ⟨"type must be generic",
      by simp [validateGeneric, chk, seqE, hver, hget, Value.eqStr, b3]⟩
    case resumeRequest => exact ⟨"type must be resume_request",
      by simp [validateResumeRequest, chk, seqE, hver, hget, Value.eqStr, b4]⟩
    case resumeResponse => exact ⟨"type must be resume_response",
      by simp [validateResumeResponse, chk, seqE, hver, hget, Value.eqStr, b5]⟩
    case batch => exact ⟨"type must be batch",
      by simp [validateBatch, chk, seqE, hver, hget, Value.eqStr, b6]⟩
    case heartbeat => exact ⟨"type must be heartbeat",
      by simp [validateHeartbeat, chk, seqE, hver, hget, Value.eqStr, b7]⟩
    case close => exact ⟨"type must be close",
      by simp [validateClose, chk, seqE, hver, hget, Value.eqStr, b8]⟩
    case ack => exact ⟨"type must be ack",
      by simp [validateAck, chk, seqE, hver, hget, Value.eqStr, b9]⟩
    case error => exact ⟨"type must be error",
      by simp [validateError, chk, seqE, hver, hget, Value.eqStr, b10]⟩

/-- C3 amended: when the discriminant field holds a string that is not one of
the ten known discriminants, `parse_message` does fail with `InvalidMessage` —
but not by table rejection: the unknown discriminant falls through to the
structural fallback (which is thus not reserved to discriminant-free payloads),
and the per-kind validation then rejects the foreign `type` value; a non-string
(e.g. null) discriminant instead bypasses the type check entirely and parsing
can succeed (see the counterexample). -/
theorem parse_unknown_discriminant_string (data : List (String × Value)) (s : String)
    (hty : data.lookup "type" = some (Value.str s))
    (hs : s ∉ type_mapping.map Prod.fst) :
    ∃ msg, parse_message (Bytes.cborOf (Value.map data)) =
      Except.error (Err.invalidMessage msg) := by
  have hinfer : _infer_message_type data = structuralInfer data := by
    rw [_infer_message_type, hty]
    show (match type_mapping.lookup s with
          | some k => Except.ok k
          | none => structuralInfer data) = structuralInfer data
    rw [lookup_eq_none_of_not_mem hs]
  simp only [parse_message, cborLoads]
  rw [hinfer]
  cases hsi : structuralInfer data with
  | error e =>
    obtain rfl := structuralInfer_error hsi
    exact ⟨_, rfl⟩
  | ok k =>
    have hget := get_type_fromDictRaw k data s hty
    obtain ⟨msg, hmsg⟩ := validate_type_mismatch (fromDictRaw k data) s hget hs
    refine ⟨msg, ?_⟩
    simp only [from_dict]
    rw [hmsg]

/-- C3 witness: a mapping whose discriminant is the unknown string "bogus"
fails to parse with `InvalidMessage`. -/
theorem parse_unknown_discriminant_string_witness :
    ([("type", Value.str "bogus"), ("heartbeat_id", Value.str "h1")].lookup "type" =
      some (Value.str "bogus")) ∧
    ∃ msg, parse_message (Bytes.cborOf (Value.map
        [("type", Value.str "bogus"), ("heartbeat_id", Value.str "h1")])) =
      Except.error (Err.invalidMessage msg) :=
  ⟨by decide,
   parse_unknown_discriminant_string
     [("type", Value.str "bogus"), ("heartbeat_id", Value.str "h1")] "bogus"
     (by decide) (by decide)⟩

/-- C5: parsing a byte string that does not decode fails with `Serialization`;
parsing bytes whose canonical decoding is not a key/value mapping fails with
`Serialization` ("must be a dictionary"); parsing a mapping with no
recognizable fields — no discriminant present and no structural predicate
matching — fails with `InvalidMessage`. -/
theorem parse_robustness :
    (∀ bs : List Nat, parse_message (Bytes.raw bs) =
        Except.error (Err.serialization "Failed to decode CBOR data")) ∧
    (∀ v : Value, v.isMap = false →
      parse_message (Bytes.cborOf v) =
        Except.error (Err.serialization
          "Failed to decode CBOR data: CBOR data must be a dictionary")) ∧
    (∀ (data : List (String × Value)) (e : Err), hasKey data "type" = false →
      structuralInfer data = Except.error e →
      parse_message (Bytes.cborOf (Value.map data)) =
        Except.error (Err.invalidMessage "Cannot determine message type from data")) := by
  refine ⟨fun bs => rfl, fun v hv => ?_, fun data e hty hsi => ?_⟩
  · cases v <;> first | rfl | simp [Value.isMap] at hv
  · have hnone : data.lookup "type" = none := by
      cases h : data.lookup "type" with
      | none => rfl
      | some v => rw [hasKey, h] at hty; simp at hty
    obtain rfl := structuralInfer_error hsi
    simp only [parse_message, cborLoads, _infer_message_type, hnone, hsi]

/-- C5 witness: random bytes, the encoding of a list, and an unrecognizable
mapping, each evaluated concretely. -/
theorem parse_robustness_witness :
    (Value.list []).isMap = false ∧
    hasKey [("foo", Value.int 1)] "type" = false ∧
    structuralInfer [("foo", Value.int 1)] =
      Except.error (Err.invalidMessage "Cannot determine message type from data") ∧
    parse_message (Bytes.raw [0, 1, 2]) =
      Except.error (Err.serialization "Failed to decode CBOR data") ∧
    parse_message (Bytes.cborOf (Value.list [])) =
      Except.error (Err.serialization
        "Failed to decode CBOR data: CBOR data must be a dictionary") ∧
    parse_message (Bytes.cborOf (Value.map [("foo", Value.int 1)])) =
      Except.error (Err.invalidMessage "Cannot determine message type from data") :=
  ⟨by decide, by decide, by decide,
   parse_robustness.1 [0, 1, 2],
   parse_robustness.2.1 (Value.list []) (by decide),
   parse_robustness.2.2 [("foo", Value.int 1)]
     (Err.invalidMessage "Cannot determine message type from data") (by decide) (by decide)⟩

end Cpor

namespace Cpor

/-- C2 counterexample: for a valid message and a truncated (10-byte) signature,
`BaseMessage.verify_signature` does not return `false` — the primitive's
wrong-length `ValueError` is re-raised as `SignatureError` — refuting the
claim that a truncated signature verifies to `false` without an exception. -/
theorem verify_truncated_signature_raises :
    validate closeMsgC2 = Except.ok () ∧
    Msg.verify_signature closeMsgC2 (SigBytes.rawSig (List.replicate 10 7))
      (pubOf (List.replicate 32 0)) =
      Except.error (Err.signatureError "Failed to verify signature") :=
  ⟨by decide, rfl⟩

/-- C2 amended: `verify(m, sign(m, k), k.public)` is `true`; verification
against a different key or of a mutated payload is `false` without an
exception; but a truncated (non-64-byte) signature raises — `SignatureError`
from the message-level wrapper, `VerificationError` ("Signature must be 64
bytes") from `CryptoManager.verify_signature` — rather than returning
`false`. -/
theorem sign_verify_spec (m m2 : Msg) (sk sk2 bs : List Nat)
    (hsk : sk.length = 32) (hk : sk2 ≠ sk) (hm : to_dict m2 ≠ to_dict m)
    (hb : bs.length ≠ 64) :
    Msg.verify_signature m (Msg.sign m sk) (pubOf sk) = Except.ok true ∧
    Msg.verify_signature m (Msg.sign m sk) (pubOf sk2) = Except.ok false ∧
    Msg.verify_signature m2 (Msg.sign m sk) (pubOf sk) = Except.ok false ∧
    Msg.verify_signature m (SigBytes.rawSig bs) (pubOf sk) =
      Except.error (Err.signatureError "Failed to verify signature") ∧
    Crypto.verify_signature (pubOf sk) m.to_cbor (SigBytes.rawSig bs) =
      Except.error (Crypto.CryptoErr.verification "Signature must be 64 bytes") := by
  refine ⟨?_, ?_, ?_, ?_, ?_⟩
  · simp [Msg.verify_signature, Msg.sign, naclVerify, SigBytes.length]
  · have hcond : pubOf sk ≠ pubOf sk2 := fun hc => hk hc.symm
    simp [Msg.verify_signature, Msg.sign, naclVerify, SigBytes.length, hcond]
  · have hcond : m.to_cbor ≠ m2.to_cbor := by
      intro hc
      apply hm
      exact (Value.map.inj (Bytes.cborOf.inj hc)).symm
    simp [Msg.verify_signature, Msg.sign, naclVerify, SigBytes.length, hcond]
  · simp [Msg.verify_signature, naclVerify, SigBytes.length, hb]
  · simp [Crypto.verify_signature, pubOf, hsk, SigBytes.length, hb]

/-- C2 witness: the three boolean outcomes evaluated on concrete close
messages and keys. -/
theorem sign_verify_spec_witness :
    ((List.replicate 32 0 : List Nat).length = 32 ∧
     (List.replicate 32 1 : List Nat) ≠ List.replicate 32 0 ∧
     to_dict closeMsgC2b ≠ to_dict closeMsgC2 ∧
     ((List.replicate 10 7 : List Nat).length ≠ 64)) ∧
    Msg.verify_signature closeMsgC2 (Msg.sign closeMsgC2 (List.replicate 32 0))
      (pubOf (List.replicate 32 0)) = Except.ok true ∧
    Msg.verify_signature closeMsgC2 (Msg.sign closeMsgC2 (List.replicate 32 0))
      (pubOf (List.replicate 32 1)) = Except.ok false ∧
    Msg.verify_signature closeMsgC2b (Msg.sign closeMsgC2 (List.replicate 32 0))
      (pubOf (List.replicate 32 0)) = Except.ok false :=
  ⟨⟨by decide, by decide, by decide, by decide⟩,
   (sign_verify_spec closeMsgC2 closeMsgC2b (List.replicate 32 0) (List.replicate 32 1)
      (List.replicate 10 7) (by decide) (by decide) (by decide) (by decide)).1,
   (sign_verify_spec closeMsgC2 closeMsgC2b (List.replicate 32 0) (List.replicate 32 1)
      (List.replicate 10 7) (by decide) (by decide) (by decide) (by decide)).2.1,
   (sign_verify_spec closeMsgC2 closeMsgC2b (List.replicate 32 0) (List.replicate 32 1)
      (List.replicate 10 7) (by decide) (by decide) (by decide) (by decide)).2.2.1⟩

end Cpor

namespace Crypto

open Cpor (Value Bytes SigBytes)

theorem lookup_dictInsert {α : Type} (k : String) (v : α) (l : List (String × α)) :
    (dictInsert k v l).lookup k = some v := by
  induction l with
  | nil => simp [dictInsert, List.lookup]
  | cons p t ih =>
    obtain ⟨k2, v2⟩ := p
    unfold dictInsert
    by_cases hk : k2 = k
    · rw [if_pos hk]
      simp [List.lookup]
    · rw [if_neg hk, List.lookup_cons, beq_false_of_ne (fun he => hk he.symm)]
      exact ih

/-- C4: `generate_keypair(key_id, "tpm")` with the hardware store reporting
unavailable does not fail: it silently generates a software-stored pair whose
`storage_type` is "software", stored in the manager's software keystore. -/
theorem tpm_unavailable_software_fallback (st : ManagerState) (key_id : String)
    (seed : List Nat) (h : st.tpm.available = false) :
    generate_keypair st key_id "tpm" seed =
      Except.ok (_generate_software_keypair st key_id seed) ∧
    (_generate_software_keypair st key_id seed).1.storage_type = "software" ∧
    (_generate_software_keypair st key_id seed).2.software_keys.lookup key_id =
      some (_generate_software_keypair st key_id seed).1 := by
  refine ⟨?_, rfl, ?_⟩
  · simp [generate_keypair, TPMStub.is_available, h]
  · exact lookup_dictInsert key_id _ st.software_keys

/-- C4 witness: the fallback evaluated on a concrete manager state. -/
theorem tpm_unavailable_software_fallback_witness :
    fallbackState.tpm.available = false ∧
    generate_keypair fallbackState "k1" "tpm" (List.replicate 32 3) =
      Except.ok (_generate_software_keypair fallbackState "k1" (List.replicate 32 3)) ∧
    (_generate_software_keypair fallbackState "k1" (List.replicate 32 3)).1.storage_type =
      "software" :=
  ⟨rfl,
   (tpm_unavailable_software_fallback fallbackState "k1" (List.replicate 32 3) rfl).1,
   (tpm_unavailable_software_fallback fallbackState "k1" (List.replicate 32 3) rfl).2.1⟩

/-- C7 counterexample: the identifier "k1" is present in the pluggable store's
key dict, yet — the store reporting unavailable — `sign_data` fails with
`KeyStorageError`, refuting "fails with KeyStorage exactly when the identifier
is unknown in both stores". -/
theorem sign_data_tpm_key_unreachable :
    tpmOnlyState.tpm.keys.lookup "k1" = some (List.replicate 32 5) ∧
    sign_data tpmOnlyState "k1" (Bytes.raw []) =
      Except.error (CryptoErr.keyStorage "Key k1 not found in any storage") :=
  ⟨rfl, rfl⟩

/-- C7 amended: `sign_data` looks the key up in the software keystore first
and then — only when the pluggable store is available — in the pluggable
store; a key found either way yields a 64-byte signature, and the
`KeyStorage` failure occurs exactly when the identifier is not in the software
keystore and the pluggable store is unavailable or does not hold it. -/
theorem sign_data_lookup_spec (st : ManagerState) (key_id : String) (data : Bytes) :
    (∀ kp, st.software_keys.lookup key_id = some kp →
      sign_data st key_id data = Except.ok (SigBytes.genuine kp.private_key data) ∧
      (SigBytes.genuine kp.private_key data).length = 64) ∧
    (∀ seed, st.software_keys.lookup key_id = none → st.tpm.available = true →
      st.tpm.keys.lookup key_id = some seed →
      sign_data st key_id data = Except.ok (SigBytes.genuine seed data) ∧
      (SigBytes.genuine seed data).length = 64) ∧
    (st.software_keys.lookup key_id = none →
      (st.tpm.available = false ∨ st.tpm.keys.lookup key_id = none) →
      sign_data st key_id data =
        Except.error (CryptoErr.keyStorage ("Key " ++ key_id ++ " not found in any storage"))) := by
  refine ⟨fun kp hkp => ⟨?_, rfl⟩, fun seed hno htp hkp => ⟨?_, rfl⟩, fun hno hcase => ?_⟩
  · simp [sign_data, hkp]
  · simp [sign_data, hno, TPMStub.is_available, htp, TPMStub.sign, hkp]
  · rcases hcase with htp | hkp
    · simp [sign_data, hno, TPMStub.is_available, htp]
    · simp only [sign_data, hno, TPMStub.is_available]
      by_cases htv : st.tpm.available = true
      · rw [if_pos htv]
        simp [TPMStub.sign, hkp]
      · rw [if_neg htv]

/-- C7 witness: the `KeyStorage` branch evaluated on a concrete state. -/
theorem sign_data_lookup_spec_witness :
    (tpmOnlyState.software_keys.lookup "k1" = none ∧
     (tpmOnlyState.tpm.available = false ∨ tpmOnlyState.tpm.keys.lookup "k1" = none)) ∧
    sign_data tpmOnlyState "k1" (Bytes.raw []) =
      Except.error (CryptoErr.keyStorage ("Key " ++ "k1" ++ " not found in any storage")) :=
  ⟨⟨rfl, Or.inl rfl⟩,
   (sign_data_lookup_spec tpmOnlyState "k1" (Bytes.raw [])).2.2 rfl (Or.inl rfl)⟩

/-- C8: the private-key accessor fails with `KeyStorageError` for every
`KeyPair` stored in the TPM; private key bytes are readable exactly for
pairs that are not TPM-stored (i.e. software-stored, the only other storage
kind the constructor admits). -/
theorem tpm_private_key_not_exported (kp : KeyPair) :
    (kp.storage_type = "tpm" →
      kp.private_key_bytes =
        Except.error (CryptoErr.keyStorage "Cannot export private key from TPM storage")) ∧
    (kp.storage_type ≠ "tpm" → kp.private_key_bytes = Except.ok kp.private_key) := by
  unfold KeyPair.private_key_bytes
  constructor
  · intro h
    rw [if_pos h]
  · intro h
    rw [if_neg h]

/-- C8 witness: a TPM-stored pair fails to export, a software-stored pair
exports its key bytes. -/
theorem tpm_private_key_not_exported_witness :
    ((⟨List.replicate 32 0, List.replicate 32 2, "kt", "tpm"⟩ : KeyPair).storage_type = "tpm") ∧
    (⟨List.replicate 32 0, List.replicate 32 2, "kt", "tpm"⟩ : KeyPair).private_key_bytes =
      Except.error (CryptoErr.keyStorage "Cannot export private key from TPM storage") ∧
    (⟨List.replicate 32 4, List.replicate 32 4, "ks", "software"⟩ : KeyPair).private_key_bytes =
      Except.ok (List.replicate 32 4) :=
  ⟨rfl,
   (tpm_private_key_not_exported ⟨List.replicate 32 0, List.replicate 32 2, "kt", "tpm"⟩).1 rfl,
   (tpm_private_key_not_exported ⟨List.replicate 32 4, List.replicate 32 4, "ks", "software"⟩).2
     (by decide)⟩

/-- C9: `generate_keypair(key_id, "software")` with `key_id` already present
in the software keystore does not fail — a fresh pair is generated and
silently replaces the stored one — whereas the pluggable store's
`generate_key` rejects a duplicate identifier with a `TPMError`. -/
theorem software_regen_overwrites_tpm_rejects (st : ManagerState) (t : TPMState)
    (key_id : String) (seed seed2 : List Nat)
    (hdup : (st.software_keys.lookup key_id).isSome = true)
    (hdup2 : (t.keys.lookup key_id).isSome = true) :
    generate_keypair st key_id "software" seed =
      Except.ok (_generate_software_keypair st key_id seed) ∧
    (_generate_software_keypair st key_id seed).2.software_keys.lookup key_id =
      some (⟨seed, Cpor.pubOf seed, key_id, "software"⟩ : KeyPair) ∧
    TPMStub.generate_key t key_id seed2 =
      Except.error (CryptoErr.tpm false ("Key " ++ key_id ++ " already exists in TPM")) := by
  refine ⟨?_, ?_, ?_⟩
  · simp [generate_keypair]
  · exact lookup_dictInsert key_id _ st.software_keys
  · simp [TPMStub.generate_key, hdup2]

/-- C9 witness: regeneration and rejection evaluated on a state already
holding "k1" in both stores. -/
theorem software_regen_overwrites_witness :
    ((dupState.software_keys.lookup "k1").isSome = true ∧
     (dupState.tpm.keys.lookup "k1").isSome = true) ∧
    generate_keypair dupState "k1" "software" (List.replicate 32 9) =
      Except.ok (_generate_software_keypair dupState "k1" (List.replicate 32 9)) ∧
    (_generate_software_keypair dupState "k1" (List.replicate 32 9)).2.software_keys.lookup "k1" =
      some (⟨List.replicate 32 9, Cpor.pubOf (List.replicate 32 9), "k1", "software"⟩ : KeyPair) ∧
    TPMStub.generate_key dupState.tpm "k1" (List.replicate 32 8) =
      Except.error (CryptoErr.tpm false ("Key " ++ "k1" ++ " already exists in TPM")) :=
  ⟨⟨rfl, rfl⟩,
   (software_regen_overwrites_tpm_rejects dupState dupState.tpm "k1"
     (List.replicate 32 9) (List.replicate 32 8) rfl rfl).1,
   (software_regen_overwrites_tpm_rejects dupState dupState.tpm "k1"
     (List.replicate 32 9) (List.replicate 32 8) rfl rfl).2.1,
   (software_regen_overwrites_tpm_rejects dupState dupState.tpm "k1"
     (List.replicate 32 9) (List.replicate 32 8) rfl rfl).2.2⟩

end Crypto
